import Mathlib

/-!
Shallow embedding of the todo-list state logic of this repository.

The repository contains two variants of the `TodoList` component:

* the authenticated variant (`src/components/TodoList.js`), embedded in
  namespace `Auth`, and
* the simple single-user variant (`unnamed/part_000`), embedded in
  namespace `Simple`.

Each React event handler is embedded as a pure function of the component
state.  The remote collaborator (the hosted table service) is modelled by an
explicit parameter describing the outcome of the single remote request the
handler performs: `Option String` for update/delete requests (`some msg` is
a failure with message `msg`, `none` is success) and `Except String (List Todo)`
for insert/select requests that return rows.  A handler additionally returns
the payload of the remote request it issued, as an `Option`, so that
"no remote request was sent" is expressible as that component being `none`.

Timestamps (`new Date().toISOString()` in the source) are modelled as opaque
`Nat` parameters; row identifiers are modelled as `Nat`.
-/

/-- Model of the JavaScript `String.prototype.trim` used by the source:
removes leading and trailing whitespace characters.  It is defined over the
character list so that it evaluates by kernel reduction. -/
def jsTrim (s : String) : String :=
  ⟨List.reverse (List.dropWhile Char.isWhitespace
      (List.reverse (List.dropWhile Char.isWhitespace s.data)))⟩

/-- Task record as stored in the remote `todos` table and mirrored locally.
The simple variant never writes `updated_at`; the field is carried unchanged
there (object spread in the source preserves unknown fields). -/
structure Todo where
  id : Nat
  text : String
  completed : Bool
  created_at : Nat
  updated_at : Nat
  deriving Repr, DecidableEq

namespace Auth

/-- Component state of the authenticated variant: the `useState` hooks
`todos`, `newTodo`, `filter`, `loading`, `error`, `editingTodo`, `editText`. -/
structure State where
  todos : List Todo
  newTodo : String
  filter : String
  loading : Bool
  error : Option String
  editingTodo : Option Nat
  editText : String
  deriving Repr, DecidableEq

/-- Payload of the insert request issued by `addTodo`. -/
structure InsertPayload where
  text : String
  completed : Bool
  user_id : Nat
  created_at : Nat
  updated_at : Nat
  deriving Repr, DecidableEq

/-- Payload of the update request issued by `saveEdit`. -/
structure UpdatePayload where
  id : Nat
  text : String
  updated_at : Nat
  deriving Repr, DecidableEq

/-- Payload of the update request issued by `toggleTodo`. -/
structure TogglePayload where
  id : Nat
  completed : Bool
  updated_at : Nat
  deriving Repr, DecidableEq

/-- Embedding of `fetchTodos`: select-all succeeds with rows (possibly a null
`data`, modelled as `Option`) or fails; `finally` clears `loading` either way. -/
def fetchTodos (s : State) (remote : Except String (Option (List Todo))) : State :=
  match remote with
  | .ok data => { s with todos := data.getD [], loading := false }
  | .error msg => { s with error := some msg, loading := false }

/-- Embedding of `addTodo`: clears the error, rejects a draft whose trim is
empty before any remote call, otherwise inserts the trimmed text with
`completed = false` and on success prepends the first returned row and clears
the draft.  An empty returned row list is a silent no-op in this variant. -/
def addTodo (s : State) (uid now : Nat) (remote : Except String (List Todo)) :
    State × Option InsertPayload :=
  let s0 := { s with error := none }
  if jsTrim s0.newTodo = "" then
    ({ s0 with error := some "Todo text cannot be empty" }, none)
  else
    let payload : InsertPayload :=
      { text := jsTrim s0.newTodo, completed := false, user_id := uid
        created_at := now, updated_at := now }
    match remote with
    | .error msg => ({ s0 with error := some msg }, some payload)
    | .ok [] => (s0, some payload)
    | .ok (row :: _) =>
        ({ s0 with todos := row :: s0.todos, newTodo := "" }, some payload)

/-- Embedding of `saveEdit`: the update request with the trimmed draft is
issued unconditionally (the source performs no emptiness validation here);
on success the matching task has its text replaced by the trimmed draft and
editing mode ends, on failure only the error message is set. -/
def saveEdit (s : State) (i now : Nat) (remote : Option String) :
    State × UpdatePayload :=
  let payload : UpdatePayload := { id := i, text := jsTrim s.editText, updated_at := now }
  match remote with
  | some msg => ({ s with error := some msg }, payload)
  | none =>
      ({ s with
          todos := s.todos.map fun t =>
            if t.id = i then { t with text := jsTrim s.editText, updated_at := now } else t,
          editingTodo := none }, payload)

/-- Message of the TypeError raised by `!todo.completed` when
`todos.find(t => t.id === id)` returned `undefined`. -/
def typeErrorMessage : String :=
  "Cannot read properties of undefined (reading completed)"

/-- Embedding of `toggleTodo`: looks the task up in the local mirror; when the
id is absent, evaluating `!todo.completed` throws before any request is built,
the surrounding catch sets the error, and no remote call happens.  Otherwise
the flipped flag is sent and, only on success, every locally matching task is
flipped. -/
def toggleTodo (s : State) (i now : Nat) (remote : Option String) :
    State × Option TogglePayload :=
  match s.todos.find? (fun t => t.id == i) with
  | none => ({ s with error := some typeErrorMessage }, none)
  | some todo =>
      let payload : TogglePayload := { id := i, completed := !todo.completed, updated_at := now }
      match remote with
      | some msg => ({ s with error := some msg }, some payload)
      | none =>
          ({ s with
              todos := s.todos.map fun t =>
                if t.id = i then { t with completed := !t.completed, updated_at := now } else t },
            some payload)

/-- Embedding of `deleteTodo`: delete-by-id remotely; on success the matching
entries are filtered out locally, on failure only the error message is set. -/
def deleteTodo (s : State) (i : Nat) (remote : Option String) : State :=
  match remote with
  | some msg => { s with error := some msg }
  | none => { s with todos := s.todos.filter fun t => t.id != i }

/-- Embedding of `clearCompleted`: delete-where-completed remotely; on success
the completed entries are filtered out locally, on failure only the error
message is set. -/
def clearCompleted (s : State) (remote : Option String) : State :=
  match remote with
  | some msg => { s with error := some msg }
  | none => { s with todos := s.todos.filter fun t => !t.completed }

/-- Embedding of the `filteredTodos` derived value: a pure function of the
local list and the filter string, issuing no remote request. -/
def filteredTodos (todos : List Todo) (filter : String) : List Todo :=
  todos.filter fun t =>
    if filter = "active" then !t.completed
    else if filter = "completed" then t.completed
    else true

end Auth

namespace Simple

/-- Component state of the simple variant: `todos`, `newTodo`, `filter`,
`loading`, `error`. -/
structure State where
  todos : List Todo
  newTodo : String
  filter : String
  loading : Bool
  error : Option String
  deriving Repr, DecidableEq

/-- Payload of the insert request issued by `addTodo` (no user or update
timestamp in this variant). -/
structure InsertPayload where
  text : String
  completed : Bool
  created_at : Nat
  deriving Repr, DecidableEq

/-- Payload of the update request issued by `toggleTodo`. -/
structure TogglePayload where
  id : Nat
  completed : Bool
  deriving Repr, DecidableEq

/-- Embedding of `fetchTodos` of the simple variant: identical control flow to
the authenticated variant. -/
def fetchTodos (s : State) (remote : Except String (Option (List Todo))) : State :=
  match remote with
  | .ok data => { s with todos := data.getD [], loading := false }
  | .error msg => { s with error := some msg, loading := false }

/-- Embedding of `addTodo` of the simple variant: same validation as the
authenticated variant, but an empty returned row list throws
`No data returned from insert`, which the catch turns into an error message. -/
def addTodo (s : State) (now : Nat) (remote : Except String (List Todo)) :
    State × Option InsertPayload :=
  let s0 := { s with error := none }
  if jsTrim s0.newTodo = "" then
    ({ s0 with error := some "Todo text cannot be empty" }, none)
  else
    let payload : InsertPayload :=
      { text := jsTrim s0.newTodo, completed := false, created_at := now }
    match remote with
    | .error msg => ({ s0 with error := some msg }, some payload)
    | .ok [] => ({ s0 with error := some "No data returned from insert" }, some payload)
    | .ok (row :: _) =>
        ({ s0 with todos := row :: s0.todos, newTodo := "" }, some payload)

/-- Embedding of `toggleTodo` of the simple variant: when the id is absent the
thrown TypeError is caught but only logged (the catch block has no `setError`),
so the state is returned unchanged; a remote failure is likewise only logged. -/
def toggleTodo (s : State) (i : Nat) (remote : Option String) :
    State × Option TogglePayload :=
  match s.todos.find? (fun t => t.id == i) with
  | none => (s, none)
  | some todo =>
      let payload : TogglePayload := { id := i, completed := !todo.completed }
      match remote with
      | some _ => (s, some payload)
      | none =>
          ({ s with
              todos := s.todos.map fun t =>
                if t.id = i then { t with completed := !t.completed } else t },
            some payload)

/-- Embedding of `deleteTodo` of the simple variant: a remote failure is caught
and logged but the catch block has no `setError`, so the state is unchanged. -/
def deleteTodo (s : State) (i : Nat) (remote : Option String) : State :=
  match remote with
  | some _ => s
  | none => { s with todos := s.todos.filter fun t => t.id != i }

/-- Embedding of `clearCompleted` of the simple variant: a remote failure is
caught and logged but the catch block has no `setError`, so the state is
unchanged. -/
def clearCompleted (s : State) (remote : Option String) : State :=
  match remote with
  | some _ => s
  | none => { s with todos := s.todos.filter fun t => !t.completed }

/-- Embedding of the `filteredTodos` derived value of the simple variant
(textually identical to the authenticated one). -/
def filteredTodos (todos : List Todo) (filter : String) : List Todo :=
  todos.filter fun t =>
    if filter = "active" then !t.completed
    else if filter = "completed" then t.completed
    else true

end Simple

/-! Shared list-level lemmas about the lookup and filter patterns used by the
handlers. -/

/-- A list containing the sought id makes `find?` succeed. -/
theorem find_isSome_of_mem_ids (l : List Todo) (i : Nat) (h : i ∈ l.map Todo.id) :
    ∃ t, l.find? (fun t => t.id == i) = some t := by
  rcases List.mem_map.mp h with ⟨t, ht, rfl⟩
  cases hf : l.find? (fun u => u.id == t.id) with
  | none => exact absurd (List.find?_eq_none.mp hf t ht) (by simp)
  | some u => exact ⟨u, rfl⟩

/-- A list not containing the sought id makes `find?` fail. -/
theorem find_eq_none_of_not_mem_ids (l : List Todo) (i : Nat) (h : i ∉ l.map Todo.id) :
    l.find? (fun t => t.id == i) = none := by
  refine List.find?_eq_none.mpr fun t ht => ?_
  simp only [beq_iff_eq]
  exact fun hid => h (List.mem_map.mpr ⟨t, ht, hid⟩)

/-- When the ids are pairwise distinct and `i` occurs among them, filtering the
entries whose id differs from `i` removes exactly one entry and keeps all the
others in order. -/
theorem filter_ne_decomp (l : List Todo) (i : Nat)
    (hnd : (l.map Todo.id).Nodup) (hmem : i ∈ l.map Todo.id) :
    ∃ l1 t l2, l = l1 ++ t :: l2 ∧ t.id = i ∧
      (∀ u ∈ l1, u.id ≠ i) ∧ (∀ u ∈ l2, u.id ≠ i) ∧
      l.filter (fun u => u.id != i) = l1 ++ l2 := by
  induction l with
  | nil => simp at hmem
  | cons a tl ih =>
    rw [List.map_cons, List.nodup_cons] at hnd
    by_cases ha : a.id = i
    · have htl : ∀ u ∈ tl, u.id ≠ i := by
        intro u hu hui
        exact hnd.1 (ha ▸ List.mem_map.mpr ⟨u, hu, hui⟩)
      refine ⟨[], a, tl, by simp, ha, by simp, htl, ?_⟩
      rw [List.filter_cons_of_neg (by simp [ha]), List.filter_eq_self.mpr ?_]
      · simp
      · intro u hu
        simp [htl u hu]
    · have hmem2 : i ∈ tl.map Todo.id := by
        rw [List.map_cons, List.mem_cons] at hmem
        rcases hmem with h | h
        · exact absurd h.symm ha
        · exact h
      obtain ⟨l1, t, l2, h1, h2, h3, h4, h5⟩ := ih hnd.2 hmem2
      refine ⟨a :: l1, t, l2, by rw [h1]; rfl, h2, ?_, h4, ?_⟩
      · intro u hu
        rcases List.mem_cons.mp hu with rfl | hu
        · exact ha
        · exact h3 u hu
      · rw [List.filter_cons_of_pos (by simp [ha]), h5, List.cons_append]

/-! Concrete sample data used by witnesses and counterexamples. -/

/-- Sample active task. -/
def sampleA : Todo := { id := 1, text := "A", completed := false, created_at := 0, updated_at := 0 }

/-- Sample completed task. -/
def sampleB : Todo := { id := 2, text := "B", completed := true, created_at := 1, updated_at := 1 }

/-- Authenticated-variant state holding the two sample tasks. -/
def sampleAuth : Auth.State :=
  { todos := [sampleA, sampleB], newTodo := "", filter := "all", loading := false,
    error := none, editingTodo := none, editText := "" }

/-- Simple-variant state holding the two sample tasks. -/
def sampleSimple : Simple.State :=
  { todos := [sampleA, sampleB], newTodo := "", filter := "all", loading := false,
    error := none }

/-- C1: adding with whitespace-only text issues no insert request, sets the
validation error and leaves the local list unchanged, in both variants. -/
theorem c1_whitespace_add_is_rejected_locally
    (sA : Auth.State) (sS : Simple.State) (uid now nowS : Nat)
    (remoteA remoteS : Except String (List Todo))
    (hA : jsTrim sA.newTodo = "") (hS : jsTrim sS.newTodo = "") :
    (Auth.addTodo sA uid now remoteA).2 = none ∧
    (Auth.addTodo sA uid now remoteA).1.error = some "Todo text cannot be empty" ∧
    (Auth.addTodo sA uid now remoteA).1.todos = sA.todos ∧
    (Simple.addTodo sS nowS remoteS).2 = none ∧
    (Simple.addTodo sS nowS remoteS).1.error = some "Todo text cannot be empty" ∧
    (Simple.addTodo sS nowS remoteS).1.todos = sS.todos := by
  simp [Auth.addTodo, Simple.addTodo, hA, hS]

/-- Witness for C1 at a concrete whitespace draft. -/
theorem c1_whitespace_add_is_rejected_locally_witness :
    (Auth.addTodo { sampleAuth with newTodo := "   " } 1 0 (.ok [])).2 = none ∧
    (Auth.addTodo { sampleAuth with newTodo := "   " } 1 0 (.ok [])).1.error =
      some "Todo text cannot be empty" ∧
    (Auth.addTodo { sampleAuth with newTodo := "   " } 1 0 (.ok [])).1.todos =
      sampleAuth.todos ∧
    (Simple.addTodo { sampleSimple with newTodo := "   " } 0 (.ok [])).2 = none ∧
    (Simple.addTodo { sampleSimple with newTodo := "   " } 0 (.ok [])).1.error =
      some "Todo text cannot be empty" ∧
    (Simple.addTodo { sampleSimple with newTodo := "   " } 0 (.ok [])).1.todos =
      sampleSimple.todos :=
  c1_whitespace_add_is_rejected_locally _ _ 1 0 0 (.ok []) (.ok []) (by decide) (by decide)

/-- State used as the C2 failing input: one task and a whitespace-only edit
draft for it. -/
def c2State : Auth.State :=
  { todos := [sampleA], newTodo := "", filter := "all", loading := false,
    error := none, editingTodo := some 1, editText := "   " }

/-- C2 fails on the code: `saveEdit` performs no emptiness validation, so with
a whitespace-only draft it issues the remote update with empty text and, on
success, replaces the task text by the empty string locally. -/
theorem c2_saveEdit_persists_empty_text :
    (Auth.saveEdit c2State 1 5 none).2 = { id := 1, text := "", updated_at := 5 } ∧
    (Auth.saveEdit c2State 1 5 none).1.todos =
      [{ id := 1, text := "", completed := false, created_at := 0, updated_at := 5 }] := by
  constructor <;> decide

/-- C3 fails as stated: in the simple variant a remote failure during toggle is
caught and logged, but the whole state — the error field included — is left
unchanged, so no non-null error message is shown. -/
theorem c3_counterexample_toggle_failure_keeps_error_none :
    (Simple.toggleTodo sampleSimple 1 (some "network error")).1.error = none ∧
    (Simple.toggleTodo sampleSimple 1 (some "network error")).1 = sampleSimple := by
  constructor <;> decide

/-- C3 (amended): in the authenticated variant every remote failure — fetch,
add (with a non-empty draft), save-edit, toggle (with a present id), delete,
clear-completed — sets the error state to the failure message; in the simple
variant fetch and add failures set the error state, while toggle, delete and
clear-completed failures are caught and logged but leave the error state
unchanged. -/
theorem c3_amended_error_surfacing
    (sA : Auth.State) (sS : Simple.State) (i uid now : Nat) (msg : String)
    (hA : jsTrim sA.newTodo ≠ "") (hS : jsTrim sS.newTodo ≠ "")
    (hmem : i ∈ sA.todos.map Todo.id) :
    (Auth.fetchTodos sA (.error msg)).error = some msg ∧
    (Auth.addTodo sA uid now (.error msg)).1.error = some msg ∧
    (Auth.saveEdit sA i now (some msg)).1.error = some msg ∧
    (Auth.toggleTodo sA i now (some msg)).1.error = some msg ∧
    (Auth.deleteTodo sA i (some msg)).error = some msg ∧
    (Auth.clearCompleted sA (some msg)).error = some msg ∧
    (Simple.fetchTodos sS (.error msg)).error = some msg ∧
    (Simple.addTodo sS now (.error msg)).1.error = some msg ∧
    (Simple.toggleTodo sS i (some msg)).1.error = sS.error ∧
    (Simple.deleteTodo sS i (some msg)).error = sS.error ∧
    (Simple.clearCompleted sS (some msg)).error = sS.error := by
  obtain ⟨t, hf⟩ := find_isSome_of_mem_ids sA.todos i hmem
  refine ⟨rfl, ?_, rfl, ?_, rfl, rfl, rfl, ?_, ?_, rfl, rfl⟩
  · simp [Auth.addTodo, hA]
  · simp [Auth.toggleTodo, hf]
  · simp [Simple.addTodo, hS]
  · cases hf2 : sS.todos.find? (fun t => t.id == i) <;> simp [Simple.toggleTodo, hf2]

/-- Witness for the amended C3 at concrete states with a present id and
non-empty drafts. -/
theorem c3_amended_error_surfacing_witness :
    (Auth.fetchTodos { sampleAuth with newTodo := "x" } (.error "boom")).error = some "boom" ∧
    (Auth.addTodo { sampleAuth with newTodo := "x" } 1 0 (.error "boom")).1.error = some "boom" ∧
    (Auth.saveEdit { sampleAuth with newTodo := "x" } 1 0 (some "boom")).1.error = some "boom" ∧
    (Auth.toggleTodo { sampleAuth with newTodo := "x" } 1 0 (some "boom")).1.error = some "boom" ∧
    (Auth.deleteTodo { sampleAuth with newTodo := "x" } 1 (some "boom")).error = some "boom" ∧
    (Auth.clearCompleted { sampleAuth with newTodo := "x" } (some "boom")).error = some "boom" ∧
    (Simple.fetchTodos { sampleSimple with newTodo := "x" } (.error "boom")).error = some "boom" ∧
    (Simple.addTodo { sampleSimple with newTodo := "x" } 0 (.error "boom")).1.error = some "boom" ∧
    (Simple.toggleTodo { sampleSimple with newTodo := "x" } 1 (some "boom")).1.error =
      ({ sampleSimple with newTodo := "x" } : Simple.State).error ∧
    (Simple.deleteTodo { sampleSimple with newTodo := "x" } 1 (some "boom")).error =
      ({ sampleSimple with newTodo := "x" } : Simple.State).error ∧
    (Simple.clearCompleted { sampleSimple with newTodo := "x" } (some "boom")).error =
      ({ sampleSimple with newTodo := "x" } : Simple.State).error :=
  c3_amended_error_surfacing _ _ 1 1 0 "boom" (by decide) (by decide) (by decide)

/-- C4: a remote failure during any mutation — add, toggle, save-edit, delete,
clear-completed — leaves the local todo list exactly as it was, in both
variants; the list is mutated only after remote success. -/
theorem c4_remote_failure_preserves_list
    (sA : Auth.State) (sS : Simple.State) (i uid now : Nat) (msg : String) :
    (Auth.addTodo sA uid now (.error msg)).1.todos = sA.todos ∧
    (Auth.toggleTodo sA i now (some msg)).1.todos = sA.todos ∧
    (Auth.saveEdit sA i now (some msg)).1.todos = sA.todos ∧
    (Auth.deleteTodo sA i (some msg)).todos = sA.todos ∧
    (Auth.clearCompleted sA (some msg)).todos = sA.todos ∧
    (Simple.addTodo sS now (.error msg)).1.todos = sS.todos ∧
    (Simple.toggleTodo sS i (some msg)).1.todos = sS.todos ∧
    (Simple.deleteTodo sS i (some msg)).todos = sS.todos ∧
    (Simple.clearCompleted sS (some msg)).todos = sS.todos := by
  refine ⟨?_, ?_, rfl, rfl, rfl, ?_, ?_, rfl, rfl⟩
  · by_cases h : jsTrim sA.newTodo = "" <;> simp [Auth.addTodo, h]
  · cases hf : sA.todos.find? (fun t => t.id == i) <;> simp [Auth.toggleTodo, hf]
  · by_cases h : jsTrim sS.newTodo = "" <;> simp [Simple.addTodo, h]
  · cases hf : sS.todos.find? (fun t => t.id == i) <;> simp [Simple.toggleTodo, hf]

/-- C5: with a non-whitespace draft, the insert request carries the trimmed
text and `completed = false`; when the remote succeeds and returns the inserted
row (the contract of insert-returning-inserted-row), that row — with trimmed
text and `completed = false` — becomes the first element of the local list,
every previously present task follows unchanged in order, and the draft is
cleared.  Both variants. -/
theorem c5_successful_add_prepends
    (sA : Auth.State) (sS : Simple.State) (uid now nowS : Nat)
    (rowA rowS : Todo) (restA restS : List Todo)
    (hA : jsTrim sA.newTodo ≠ "") (hS : jsTrim sS.newTodo ≠ "")
    (hAt : rowA.text = jsTrim sA.newTodo) (hAc : rowA.completed = false)
    (hSt : rowS.text = jsTrim sS.newTodo) (hSc : rowS.completed = false) :
    (Auth.addTodo sA uid now (.ok (rowA :: restA))).2 =
      some { text := jsTrim sA.newTodo, completed := false, user_id := uid,
             created_at := now, updated_at := now } ∧
    (Auth.addTodo sA uid now (.ok (rowA :: restA))).1.todos = rowA :: sA.todos ∧
    rowA.text = jsTrim sA.newTodo ∧ rowA.completed = false ∧
    (Auth.addTodo sA uid now (.ok (rowA :: restA))).1.newTodo = "" ∧
    (Simple.addTodo sS nowS (.ok (rowS :: restS))).2 =
      some { text := jsTrim sS.newTodo, completed := false, created_at := nowS } ∧
    (Simple.addTodo sS nowS (.ok (rowS :: restS))).1.todos = rowS :: sS.todos ∧
    rowS.text = jsTrim sS.newTodo ∧ rowS.completed = false ∧
    (Simple.addTodo sS nowS (.ok (rowS :: restS))).1.newTodo = "" := by
  simp [Auth.addTodo, Simple.addTodo, hA, hS, hAt, hAc, hSt, hSc]

/-- Witness for C5 at a concrete draft and echoed row. -/
theorem c5_successful_add_prepends_witness :
    (Auth.addTodo { sampleAuth with newTodo := " Buy milk " } 1 3
        (.ok [{ id := 7, text := "Buy milk", completed := false,
                created_at := 3, updated_at := 3 }])).1.todos =
      { id := 7, text := "Buy milk", completed := false, created_at := 3, updated_at := 3 } ::
        sampleAuth.todos ∧
    (Simple.addTodo { sampleSimple with newTodo := " Buy milk " } 3
        (.ok [{ id := 7, text := "Buy milk", completed := false,
                created_at := 3, updated_at := 3 }])).1.todos =
      { id := 7, text := "Buy milk", completed := false, created_at := 3, updated_at := 3 } ::
        sampleSimple.todos := by
  have h := c5_successful_add_prepends
    { sampleAuth with newTodo := " Buy milk " } { sampleSimple with newTodo := " Buy milk " }
    1 3 3
    { id := 7, text := "Buy milk", completed := false, created_at := 3, updated_at := 3 }
    { id := 7, text := "Buy milk", completed := false, created_at := 3, updated_at := 3 }
    [] [] (by decide) (by decide) (by decide) (by decide) (by decide) (by decide)
  exact ⟨h.2.1, h.2.2.2.2.2.2.1⟩

/-- The local flip of the authenticated `toggleTodo` preserves every id. -/
theorem toggle_flip_id_auth (t : Todo) (i n : Nat) :
    (if t.id = i then { t with completed := !t.completed, updated_at := n } else t).id = t.id := by
  by_cases h : t.id = i <;> simp [h]

/-- The local flip of the simple `toggleTodo` preserves every id. -/
theorem toggle_flip_id_simple (t : Todo) (i : Nat) :
    (if t.id = i then { t with completed := !t.completed } else t).id = t.id := by
  by_cases h : t.id = i <;> simp [h]

/-- Applying the authenticated local flip twice restores the id, text and
completed flag of every entry. -/
theorem toggle_twice_proj_auth (l : List Todo) (i n1 n2 : Nat) :
    ((l.map fun t =>
        if t.id = i then { t with completed := !t.completed, updated_at := n1 } else t).map
          fun t =>
            if t.id = i then { t with completed := !t.completed, updated_at := n2 } else t).map
        (fun t => (t.id, t.text, t.completed)) =
      l.map fun t => (t.id, t.text, t.completed) := by
  rw [List.map_map, List.map_map]
  refine List.map_congr_left fun t ht => ?_
  by_cases h : t.id = i <;> simp [h]

/-- Applying the simple local flip twice restores the id, text and completed
flag of every entry. -/
theorem toggle_twice_proj_simple (l : List Todo) (i : Nat) :
    ((l.map fun t => if t.id = i then { t with completed := !t.completed } else t).map
          fun t => if t.id = i then { t with completed := !t.completed } else t).map
        (fun t => (t.id, t.text, t.completed)) =
      l.map fun t => (t.id, t.text, t.completed) := by
  rw [List.map_map, List.map_map]
  refine List.map_congr_left fun t ht => ?_
  by_cases h : t.id = i <;> simp [h]

/-- C6: with pairwise-distinct ids and a present id, toggling the same task
twice (both remote calls succeeding) restores every completed flag to its
original value and leaves every id and text unchanged, in both variants. -/
theorem c6_toggle_twice_restores_flags
    (sA : Auth.State) (sS : Simple.State) (i j n1 n2 : Nat)
    (_hndA : (sA.todos.map Todo.id).Nodup) (hmemA : i ∈ sA.todos.map Todo.id)
    (_hndS : (sS.todos.map Todo.id).Nodup) (hmemS : j ∈ sS.todos.map Todo.id) :
    (Auth.toggleTodo (Auth.toggleTodo sA i n1 none).1 i n2 none).1.todos.map
        (fun t => (t.id, t.text, t.completed)) =
      sA.todos.map (fun t => (t.id, t.text, t.completed)) ∧
    (Simple.toggleTodo (Simple.toggleTodo sS j none).1 j none).1.todos.map
        (fun t => (t.id, t.text, t.completed)) =
      sS.todos.map (fun t => (t.id, t.text, t.completed)) := by
  constructor
  · obtain ⟨t1, hf1⟩ := find_isSome_of_mem_ids sA.todos i hmemA
    have hmem2 : i ∈ ((sA.todos.map fun t =>
        if t.id = i then { t with completed := !t.completed, updated_at := n1 } else t).map
          Todo.id) := by
      rcases List.mem_map.mp hmemA with ⟨t, ht, rfl⟩
      exact List.mem_map.mpr
        ⟨_, List.mem_map_of_mem _ ht, toggle_flip_id_auth t t.id n1⟩
    obtain ⟨t2, hf2⟩ := find_isSome_of_mem_ids _ i hmem2
    simp only [Auth.toggleTodo, hf1]
    simp only [hf2]
    exact toggle_twice_proj_auth sA.todos i n1 n2
  · obtain ⟨t1, hf1⟩ := find_isSome_of_mem_ids sS.todos j hmemS
    have hmem2 : j ∈ ((sS.todos.map fun t =>
        if t.id = j then { t with completed := !t.completed } else t).map Todo.id) := by
      rcases List.mem_map.mp hmemS with ⟨t, ht, rfl⟩
      exact List.mem_map.mpr
        ⟨_, List.mem_map_of_mem _ ht, toggle_flip_id_simple t t.id⟩
    obtain ⟨t2, hf2⟩ := find_isSome_of_mem_ids _ j hmem2
    simp only [Simple.toggleTodo, hf1]
    simp only [hf2]
    exact toggle_twice_proj_simple sS.todos j

/-- Witness for C6 at the sample states, toggling the task with id 1 twice. -/
theorem c6_toggle_twice_restores_flags_witness :
    (Auth.toggleTodo (Auth.toggleTodo sampleAuth 1 5 none).1 1 6 none).1.todos.map
        (fun t => (t.id, t.text, t.completed)) =
      sampleAuth.todos.map (fun t => (t.id, t.text, t.completed)) ∧
    (Simple.toggleTodo (Simple.toggleTodo sampleSimple 1 none).1 1 none).1.todos.map
        (fun t => (t.id, t.text, t.completed)) =
      sampleSimple.todos.map (fun t => (t.id, t.text, t.completed)) :=
  c6_toggle_twice_restores_flags sampleAuth sampleSimple 1 1 5 6
    (by decide) (by decide) (by decide) (by decide)

/-- C7: with pairwise-distinct ids and a present id, a successful delete
removes exactly the one entry whose id matches and leaves every other entry
present, unchanged and in order, in both variants. -/
theorem c7_delete_removes_exactly_one
    (sA : Auth.State) (sS : Simple.State) (i j : Nat)
    (hndA : (sA.todos.map Todo.id).Nodup) (hmemA : i ∈ sA.todos.map Todo.id)
    (hndS : (sS.todos.map Todo.id).Nodup) (hmemS : j ∈ sS.todos.map Todo.id) :
    (∃ l1 t l2, sA.todos = l1 ++ t :: l2 ∧ t.id = i ∧
      (∀ u ∈ l1, u.id ≠ i) ∧ (∀ u ∈ l2, u.id ≠ i) ∧
      (Auth.deleteTodo sA i none).todos = l1 ++ l2) ∧
    (∃ l1 t l2, sS.todos = l1 ++ t :: l2 ∧ t.id = j ∧
      (∀ u ∈ l1, u.id ≠ j) ∧ (∀ u ∈ l2, u.id ≠ j) ∧
      (Simple.deleteTodo sS j none).todos = l1 ++ l2) := by
  constructor
  · obtain ⟨l1, t, l2, h1, h2, h3, h4, h5⟩ := filter_ne_decomp sA.todos i hndA hmemA
    exact ⟨l1, t, l2, h1, h2, h3, h4, h5⟩
  · obtain ⟨l1, t, l2, h1, h2, h3, h4, h5⟩ := filter_ne_decomp sS.todos j hndS hmemS
    exact ⟨l1, t, l2, h1, h2, h3, h4, h5⟩

/-- Witness for C7 at the sample states, deleting the task with id 2. -/
theorem c7_delete_removes_exactly_one_witness :
    (∃ l1 t l2, sampleAuth.todos = l1 ++ t :: l2 ∧ t.id = 2 ∧
      (∀ u ∈ l1, u.id ≠ 2) ∧ (∀ u ∈ l2, u.id ≠ 2) ∧
      (Auth.deleteTodo sampleAuth 2 none).todos = l1 ++ l2) ∧
    (∃ l1 t l2, sampleSimple.todos = l1 ++ t :: l2 ∧ t.id = 2 ∧
      (∀ u ∈ l1, u.id ≠ 2) ∧ (∀ u ∈ l2, u.id ≠ 2) ∧
      (Simple.deleteTodo sampleSimple 2 none).todos = l1 ++ l2) :=
  c7_delete_removes_exactly_one sampleAuth sampleSimple 2 2
    (by decide) (by decide) (by decide) (by decide)

/-- C8: a successful clear-completed yields a sublist of the original list
whose members are exactly the non-completed tasks, kept with their original
multiplicity and order, every completed task being removed; both variants. -/
theorem c8_clear_completed_keeps_exactly_active (sA : Auth.State) (sS : Simple.State) :
    (Auth.clearCompleted sA none).todos.Sublist sA.todos ∧
    (∀ t ∈ (Auth.clearCompleted sA none).todos, t.completed = false) ∧
    (∀ t : Todo, t.completed = false →
      (Auth.clearCompleted sA none).todos.count t = sA.todos.count t) ∧
    (∀ t : Todo, t.completed = true → t ∉ (Auth.clearCompleted sA none).todos) ∧
    (Simple.clearCompleted sS none).todos.Sublist sS.todos ∧
    (∀ t ∈ (Simple.clearCompleted sS none).todos, t.completed = false) ∧
    (∀ t : Todo, t.completed = false →
      (Simple.clearCompleted sS none).todos.count t = sS.todos.count t) ∧
    (∀ t : Todo, t.completed = true → t ∉ (Simple.clearCompleted sS none).todos) := by
  refine ⟨List.filter_sublist _, ?_, ?_, ?_, List.filter_sublist _, ?_, ?_, ?_⟩
  · intro t ht
    simpa using (List.mem_filter.mp ht).2
  · intro t ht
    exact List.count_filter (by simp [ht])
  · intro t ht hmem
    have := (List.mem_filter.mp hmem).2
    simp [ht] at this
  · intro t ht
    simpa using (List.mem_filter.mp ht).2
  · intro t ht
    exact List.count_filter (by simp [ht])
  · intro t ht hmem
    have := (List.mem_filter.mp hmem).2
    simp [ht] at this

/-- Witness for C8: at the sample states the completed sample task is removed
and the active one is kept. -/
theorem c8_clear_completed_keeps_exactly_active_witness :
    (Auth.clearCompleted sampleAuth none).todos.count sampleA = sampleAuth.todos.count sampleA ∧
    sampleB ∉ (Auth.clearCompleted sampleAuth none).todos ∧
    (Simple.clearCompleted sampleSimple none).todos.count sampleA =
      sampleSimple.todos.count sampleA ∧
    sampleB ∉ (Simple.clearCompleted sampleSimple none).todos := by
  have h := c8_clear_completed_keeps_exactly_active sampleAuth sampleSimple
  exact ⟨h.2.2.1 sampleA (by decide), h.2.2.2.1 sampleB (by decide),
    h.2.2.2.2.2.2.1 sampleA (by decide), h.2.2.2.2.2.2.2 sampleB (by decide)⟩

/-- C9: the filter view is a pure projection of the local list: with mode
`active` it holds exactly the non-completed tasks, with mode `completed`
exactly the completed ones, with mode `all` the full list, and for every mode
it is a sublist of the full list, which itself is untouched; both variants. -/
theorem c9_filter_is_pure_projection (todos : List Todo) :
    (∀ t : Todo, t ∈ Auth.filteredTodos todos "active" ↔ t ∈ todos ∧ t.completed = false) ∧
    (∀ t : Todo, t ∈ Auth.filteredTodos todos "completed" ↔ t ∈ todos ∧ t.completed = true) ∧
    Auth.filteredTodos todos "all" = todos ∧
    (∀ mode : String, (Auth.filteredTodos todos mode).Sublist todos) ∧
    (∀ t : Todo, t ∈ Simple.filteredTodos todos "active" ↔ t ∈ todos ∧ t.completed = false) ∧
    (∀ t : Todo, t ∈ Simple.filteredTodos todos "completed" ↔ t ∈ todos ∧ t.completed = true) ∧
    Simple.filteredTodos todos "all" = todos ∧
    (∀ mode : String, (Simple.filteredTodos todos mode).Sublist todos) := by
  have hact : ("active" : String) ≠ "completed" := by decide
  have hall1 : ("all" : String) ≠ "active" := by decide
  have hall2 : ("all" : String) ≠ "completed" := by decide
  have hca : ("completed" : String) ≠ "active" := by decide
  refine ⟨?_, ?_, ?_, fun mode => List.filter_sublist _,
    ?_, ?_, ?_, fun mode => List.filter_sublist _⟩
  · intro t
    simp [Auth.filteredTodos, List.mem_filter]
  · intro t
    simp [Auth.filteredTodos, List.mem_filter, hca]
  · simp [Auth.filteredTodos, hall1, hall2]
  · intro t
    simp [Simple.filteredTodos, List.mem_filter]
  · intro t
    simp [Simple.filteredTodos, List.mem_filter, hca]
  · simp [Simple.filteredTodos, hall1, hall2]

/-- C10: toggling an id absent from the local list does not crash: the lookup
returns nothing, the thrown access on the missing record is caught, no remote
request is issued, and the local list is unchanged (the authenticated variant
additionally surfaces the caught TypeError message, the simple variant leaves
the whole state untouched). -/
theorem c10_toggle_missing_id_is_safe
    (sA : Auth.State) (sS : Simple.State) (i now : Nat) (rA rS : Option String)
    (hA : i ∉ sA.todos.map Todo.id) (hS : i ∉ sS.todos.map Todo.id) :
    sA.todos.find? (fun t => t.id == i) = none ∧
    (Auth.toggleTodo sA i now rA).2 = none ∧
    (Auth.toggleTodo sA i now rA).1.todos = sA.todos ∧
    (Auth.toggleTodo sA i now rA).1.error = some Auth.typeErrorMessage ∧
    sS.todos.find? (fun t => t.id == i) = none ∧
    (Simple.toggleTodo sS i rS).2 = none ∧
    (Simple.toggleTodo sS i rS).1 = sS := by
  have hfA := find_eq_none_of_not_mem_ids sA.todos i hA
  have hfS := find_eq_none_of_not_mem_ids sS.todos i hS
  exact ⟨hfA, by simp [Auth.toggleTodo, hfA], by simp [Auth.toggleTodo, hfA],
    by simp [Auth.toggleTodo, hfA], hfS, by simp [Simple.toggleTodo, hfS],
    by simp [Simple.toggleTodo, hfS]⟩

/-- Witness for C10 at the sample states with the absent id 99. -/
theorem c10_toggle_missing_id_is_safe_witness :
    sampleAuth.todos.find? (fun t => t.id == 99) = none ∧
    (Auth.toggleTodo sampleAuth 99 0 none).2 = none ∧
    (Auth.toggleTodo sampleAuth 99 0 none).1.todos = sampleAuth.todos ∧
    (Auth.toggleTodo sampleAuth 99 0 none).1.error = some Auth.typeErrorMessage ∧
    sampleSimple.todos.find? (fun t => t.id == 99) = none ∧
    (Simple.toggleTodo sampleSimple 99 none).2 = none ∧
    (Simple.toggleTodo sampleSimple 99 none).1 = sampleSimple :=
  c10_toggle_missing_id_is_safe sampleAuth sampleSimple 99 0 none none
    (by decide) (by decide)

/-- Witness for C9 at the sample list. -/
theorem c9_filter_is_pure_projection_witness :
    Auth.filteredTodos [sampleA, sampleB] "all" = [sampleA, sampleB] ∧
    (sampleA ∈ Auth.filteredTodos [sampleA, sampleB] "active" ↔
      sampleA ∈ [sampleA, sampleB] ∧ sampleA.completed = false) ∧
    Simple.filteredTodos [sampleA, sampleB] "all" = [sampleA, sampleB] :=
  ⟨(c9_filter_is_pure_projection [sampleA, sampleB]).2.2.1,
    (c9_filter_is_pure_projection [sampleA, sampleB]).1 sampleA,
    (c9_filter_is_pure_projection [sampleA, sampleB]).2.2.2.2.2.2.1⟩
